import Mathlib

/-!
Verification development for `scholar.py`, a Google Scholar result scraper.

The Python source is shallowly embedded: Python strings are Lean `String`
(with character-level helpers working on `String.data`), Python `None` /
strings / ints stored in an `Article` are the inductive `PyVal`, fallible
code returns `Except PyErr`, and the BeautifulSoup document tree is the
inductive `Tag`.  Network transport is an oracle `String → Tag` mapping a
URL to the parsed response document, matching the spec's "external
transport collaborator" boundary.
-/

set_option maxRecDepth 10000

/-- Python exception kinds that the embedded code can raise. -/
inductive PyErr where
  | attributeError
  | typeError
  | keyError
  | indexError
  | valueError
deriving DecidableEq, Repr

/-- A Python value stored in an `Article` field: `None`, a string, or an int. -/
inductive PyVal where
  | none
  | str (s : String)
  | int (n : Int)
deriving DecidableEq, Repr

/-- Python truthiness of a `PyVal` (`if self.article['title']:`). -/
def truthy : PyVal → Bool
  | .none => false
  | .str s => s != ""
  | .int n => n != 0

/-- `unicode(v)` / `str(v)` rendering used by `as_csv` / `as_txt`. -/
def pyStr : PyVal → String
  | .none => "None"
  | .str s => s
  | .int n => toString n

/-! ### Character-level string helpers (Python `str` methods) -/

/-- `sub.isPrefixOf l`-style check, written out for kernel computability. -/
def strStartsWith (s pre : String) : Bool := pre.data.isPrefixOf s.data

/-- Python `s.endswith(suf)`. -/
def strEndsWith (s suf : String) : Bool := suf.data.isSuffixOf s.data

/-- Substring occurrence on char lists (Python `sub in s`). -/
def listContainsSub (sub : List Char) : List Char → Bool
  | [] => sub.isPrefixOf []
  | c :: rest => sub.isPrefixOf (c :: rest) || listContainsSub sub rest

/-- Python `sub in s`. -/
def strContains (s sub : String) : Bool := listContainsSub sub.data s.data

/-- Python whitespace for `str.split()` / `int()` stripping. -/
def isPySpace (c : Char) : Bool :=
  c == ' ' || c == '\t' || c == '\n' || c == '\r' || c == '\x0b' || c == '\x0c'

/-- Worker for Python `str.split()`: split on whitespace runs, no empties. -/
def wsplitGo : List Char → List Char → List (List Char)
  | acc, [] => if acc.isEmpty then [] else [acc.reverse]
  | acc, c :: rest =>
    if isPySpace c then
      if acc.isEmpty then wsplitGo [] rest else acc.reverse :: wsplitGo [] rest
    else wsplitGo (c :: acc) rest

/-- Python `s.split()` (no argument): whitespace-delimited tokens. -/
def pyWords (s : String) : List String := (wsplitGo [] s.data).map (fun l => ⟨l⟩)

/-- Strip Python whitespace from both ends. -/
def pyTrim (cs : List Char) : List Char :=
  ((cs.dropWhile isPySpace).reverse.dropWhile isPySpace).reverse

/-- Accumulate a decimal value over digit characters; `none` on a non-digit. -/
def digitsValGo : Nat → List Char → Option Nat
  | acc, [] => some acc
  | acc, c :: rest =>
    if c.isDigit then digitsValGo (acc * 10 + (c.toNat - '0'.toNat)) rest else none

/-- Value of a non-empty all-digit string, else `none`. -/
def digitsVal : List Char → Option Nat
  | [] => none
  | c :: rest => digitsValGo 0 (c :: rest)

/-- Python 2 `int(s)` for a string argument: optional surrounding whitespace,
optional sign, then at least one decimal digit; `none` models `ValueError`. -/
def pyInt (s : String) : Option Int :=
  match pyTrim s.data with
  | '+' :: rest => (digitsVal rest).map (fun n => (n : Int))
  | '-' :: rest => (digitsVal rest).map (fun n => -(n : Int))
  | cs => (digitsVal cs).map (fun n => (n : Int))

/-- `''.join` of a list of strings. -/
def strConcat : List String → String
  | [] => ""
  | s :: rest => s ++ strConcat rest

/-- `sep.join(vals)` on char lists (Python string join). -/
def joinSep (sep : List Char) : List (List Char) → List Char
  | [] => []
  | [v] => v
  | v :: rest => v ++ sep ++ joinSep sep rest

/-! ### The `Article` record (`class Article`) -/

/-- One entry of `Article.attrs`: the dict maps `key` to the triple
`[value, label, display-order index]`. -/
structure Entry where
  key : String
  val : PyVal
  label : String
  idx : Nat
deriving DecidableEq, Repr

/-- `Article`: dictionary-like record; `attrs` lists the dict's entries. -/
structure Article where
  attrs : List Entry
deriving DecidableEq, Repr

/-- `Article.__init__`: the nine canonical fields. -/
def initArticle : Article :=
  ⟨[⟨"title", .none, "Title", 0⟩,
    ⟨"authors", .none, "Authors", 1⟩,
    ⟨"url", .none, "URL", 2⟩,
    ⟨"num_citations", .int 0, "Citations", 3⟩,
    ⟨"num_versions", .int 0, "Versions", 4⟩,
    ⟨"url_citations", .none, "Citations list", 5⟩,
    ⟨"url_versions", .none, "Versions list", 6⟩,
    ⟨"year", .none, "Year", 7⟩,
    ⟨"journal", .none, "Journal", 8⟩]⟩

/-- `Article.__getitem__`: value of the field, `None` when absent. -/
def Article.get (r : Article) (k : String) : PyVal :=
  match r.attrs.find? (fun e => e.key == k) with
  | some e => e.val
  | Option.none => PyVal.none

/-- Replace the value of the (first) entry with the given key, in place. -/
def updateFirst (k : String) (v : PyVal) : List Entry → List Entry
  | [] => []
  | e :: es => if e.key == k then { e with val := v } :: es else e :: updateFirst k v es

/-- `Article.__setitem__`: update a known key's value in place, or append a
new entry `[item, key, len(self.attrs)]`. -/
def Article.set (r : Article) (k : String) (v : PyVal) : Article :=
  if r.attrs.any (fun e => e.key == k) then ⟨updateFirst k v r.attrs⟩
  else ⟨r.attrs ++ [⟨k, v, k, r.attrs.length⟩]⟩

/-- `Article.__delitem__`: remove the key's entry when present. -/
def Article.del (r : Article) (k : String) : Article :=
  if r.attrs.any (fun e => e.key == k) then ⟨r.attrs.eraseP (fun e => e.key == k)⟩
  else r

/-- Stable insertion by display-order index (model of Python's stable
`sorted(..., key=lambda item: item[2])`). -/
def insByIdx (e : Entry) : List Entry → List Entry
  | [] => [e]
  | x :: xs => if e.idx ≤ x.idx then e :: x :: xs else x :: insByIdx e xs

/-- Stable sort of entries by display-order index. -/
def sortByIdx : List Entry → List Entry
  | [] => []
  | x :: xs => insByIdx x (sortByIdx xs)

/-- The field order used by both `as_txt` and `as_csv`. -/
def Article.renderOrder (r : Article) : List Entry := sortByIdx r.attrs

/-- Python `'%Ns' % label`: right-justify to width `n`. -/
def rjust (s : String) (n : Nat) : String :=
  ⟨List.replicate (n - s.data.length) ' ' ++ s.data⟩

/-- Largest value of a list of naturals; `none` on `[]` (Python `max([])`
raises `ValueError`). -/
def pyMax : List Nat → Option Nat
  | [] => Option.none
  | [n] => some n
  | n :: rest => (pyMax rest).map (fun m => Nat.max n m)

/-- `Article.as_txt`, per line: `'%%%ds %%s' % max_label_len` applied to
`(label, value)`. -/
def Article.asTxtLines (r : Article) : Except PyErr (List String) :=
  let items := sortByIdx r.attrs
  match pyMax (items.map (fun e => e.label.data.length)) with
  | Option.none => Except.error PyErr.valueError
  | some w => Except.ok (items.map (fun e => rjust e.label w ++ " " ++ pyStr e.val))

/-- `Article.as_csv` keys: field names sorted by display-order index. -/
def Article.asCsvKeys (r : Article) : List String := (sortByIdx r.attrs).map (fun e => e.key)

/-- `Article.as_csv` data row (no header): `sep.join(unicode(self.attrs[key][0]))`
over the sorted keys, as a char list. -/
def Article.asCsvRowChars (r : Article) (sep : List Char) : List Char :=
  joinSep sep ((sortByIdx r.attrs).map (fun e => (pyStr (r.get e.key)).data))

/-! ### The document tree (BeautifulSoup model) -/

/-- A parsed HTML node: an element with attributes and children, or a text
node (`NavigableString`). -/
inductive Tag where
  | elem (name : String) (attrs : List (String × String)) (children : List Tag)
  | text (s : String)

/-- Children of a node (text nodes have none). -/
def Tag.children : Tag → List Tag
  | .elem _ _ cs => cs
  | .text _ => []

/-- `tag.name == n` (text nodes fail every name test, mirroring the
`hasattr(tag, 'name')` guards). -/
def Tag.nameIs (t : Tag) (n : String) : Bool :=
  match t with
  | .elem m _ _ => m == n
  | .text _ => false

/-- `tag.get(k)`: attribute lookup, `None` when absent. -/
def Tag.getAttr (t : Tag) (k : String) : Option String :=
  match t with
  | .elem _ attrs _ => (attrs.find? (fun p => p.1 == k)).map (fun p => p.2)
  | .text _ => Option.none

/-- BeautifulSoup 3 `tag.string`: the single child when it is a
`NavigableString`, else `None`. -/
def Tag.string? : Tag → Option String
  | .elem _ _ [.text s] => some s
  | _ => Option.none

mutual

/-- Matching element nodes of a subtree, pre-order, including the root. -/
def subtagsSelf (p : Tag → Bool) : Tag → List Tag
  | .text _ => []
  | .elem n a cs =>
    (if p (.elem n a cs) then [Tag.elem n a cs] else []) ++ subtagsList p cs

/-- Matching element nodes of a forest, pre-order. -/
def subtagsList (p : Tag → Bool) : List Tag → List Tag
  | [] => []
  | t :: ts => subtagsSelf p t ++ subtagsList p ts

end

/-- `tag.findAll(pred)`: matching descendants (excluding the node itself),
document order. -/
def Tag.findAll (t : Tag) (p : Tag → Bool) : List Tag := subtagsList p t.children

/-- `tag.find(pred)` / attribute-style access like `tag.h3`: first matching
descendant. -/
def Tag.findFirst (t : Tag) (p : Tag → Bool) : Option Tag := (t.findAll p).head?

mutual

/-- `findAll(text=True)` of a node: descendant strings, document order. -/
def textsOf : Tag → List String
  | .text s => [s]
  | .elem _ _ cs => textsOfList cs

/-- Descendant strings of a forest. -/
def textsOfList : List Tag → List String
  | [] => []
  | t :: ts => textsOf t ++ textsOfList ts

end

/-- `tag.getText()` / `tag.text`: concatenation of all descendant strings. -/
def Tag.getText (t : Tag) : String := strConcat (textsOf t)

/-! ### Link classifier and path resolution (`ScholarParser`) -/

/-- `ScholarParser.SCHOLAR_SITE`. -/
def scholarSite : String := "http://scholar.google.com"

/-- `ScholarParser._path2url` (identical code in `CitationParser._path2url`). -/
def pathToUrl (site path : String) : String :=
  if strStartsWith path "http://" then path
  else if !(strStartsWith path "/") then site ++ ("/" ++ path)
  else site ++ path

/-- `_as_int`: `int(obj)` with `ValueError` mapped to `None`. -/
def asInt (s : String) : PyVal :=
  match pyInt s with
  | some n => PyVal.int n
  | Option.none => PyVal.none

/-- The `/scholar?cites` arm of `_parse_links`.  BeautifulSoup tags always
have a `string` attribute, so `hasattr(tag, 'string')` is true and
`tag.string.startswith(...)` raises `AttributeError` when `string` is
`None`. -/
def citesStep (site : String) (a : Article) (tag : Tag) (href : String) : Except PyErr Article :=
  if strStartsWith href "/scholar?cites" then
    (match Tag.string? tag with
     | Option.none => Except.error PyErr.attributeError
     | some s =>
       if strStartsWith s "Cited by" then
         match (pyWords s).getLast? with
         | Option.none => Except.error PyErr.indexError
         | some tok => Except.ok (a.set "num_citations" (asInt tok))
       else Except.ok a) >>=
      (fun a1 => Except.ok (a1.set "url_citations" (PyVal.str (pathToUrl site href))))
  else Except.ok a

/-- The `/scholar?cluster` arm of `_parse_links`. -/
def clusterStep (site : String) (a : Article) (tag : Tag) (href : String) : Except PyErr Article :=
  if strStartsWith href "/scholar?cluster" then
    (match Tag.string? tag with
     | Option.none => Except.error PyErr.attributeError
     | some s =>
       if strStartsWith s "All " then
         match (pyWords s).get? 1 with
         | Option.none => Except.error PyErr.indexError
         | some tok => Except.ok (a.set "num_versions" (asInt tok))
       else Except.ok a) >>=
      (fun a1 => Except.ok (a1.set "url_versions" (PyVal.str (pathToUrl site href))))
  else Except.ok a

/-- One iteration of the `_parse_links` loop: skip text nodes, skip
non-anchors and anchors without `href`, then run both classifier arms. -/
def parseLinkTag (site : String) (a : Article) (tag : Tag) : Except PyErr Article :=
  match tag with
  | .text _ => Except.ok a
  | .elem name _ _ =>
    if name != "a" then Except.ok a
    else
      match Tag.getAttr tag "href" with
      | Option.none => Except.ok a
      | some href => citesStep site a tag href >>= fun a1 => clusterStep site a1 tag href

/-- `ScholarParser._parse_links`: iterate the span's children. -/
def parseLinks (site : String) (a : Article) (span : Tag) : Except PyErr Article :=
  span.children.foldlM (fun acc t => parseLinkTag site acc t) a

/-! ### Year regex `\b(?:20|19)\d{2}\b` (`findall`) -/

/-- Regex word character, for `\b`. -/
def isWordChar (c : Char) : Bool := c.isAlphanum || c == '_'

/-- `\b` holds at a match edge when the adjacent character (if any) is not a
word character; the year pattern itself starts and ends with digits. -/
def boundaryOk : Option Char → Bool
  | Option.none => true
  | some c => !(isWordChar c)

/-- Left-to-right non-overlapping scan for `\b(?:20|19)\d{2}\b`; the first
argument is the character preceding the current position. -/
def yearScan : Option Char → List Char → List String
  | prev, a :: b :: c :: d :: rest =>
    if ((a == '2' && b == '0') || (a == '1' && b == '9')) && c.isDigit && d.isDigit
        && boundaryOk prev && boundaryOk rest.head? then
      String.mk [a, b, c, d] :: yearScan (some d) rest
    else yearScan (some a) (b :: c :: d :: rest)
  | _, _ => []

/-- `self.year_re.findall(text)`. -/
def yearFind (s : String) : List String := yearScan Option.none s.data

/-- `year[0] if len(year) > 0 else None`. -/
def yearVal (s : String) : PyVal :=
  match yearFind s with
  | y :: _ => PyVal.str y
  | [] => PyVal.none

/-! ### The parser variants -/

/-- Set `title` from the anchor's joined text, then `url` from its `href`;
`tag.a['href']` raises `KeyError` when the attribute is absent. -/
def titleUrlFromAnchor (site : String) (a : Article) (anchor : Tag) : Except PyErr Article :=
  let a1 := a.set "title" (PyVal.str (strConcat (textsOf anchor)))
  match Tag.getAttr anchor "href" with
  | Option.none => Except.error PyErr.keyError
  | some href => Except.ok (a1.set "url" (PyVal.str (pathToUrl site href)))

/-- One child iteration of baseline `ScholarParser._parse_article`. -/
def stepBase (site : String) (a : Article) (tag : Tag) : Except PyErr Article :=
  match tag with
  | .text _ => Except.ok a
  | .elem name _ _ =>
    (if name == "div" && Tag.getAttr tag "class" == some "gs_rt" then
       match Tag.findFirst tag (fun t => t.nameIs "h3") with
       | Option.none => Except.ok a
       | some h3 =>
         match Tag.findFirst h3 (fun t => t.nameIs "a") with
         | Option.none => Except.ok a
         | some anchor => titleUrlFromAnchor site a anchor
     else Except.ok a) >>= fun a1 =>
    if name == "font" then
      tag.children.foldlM (fun acc t2 =>
        match t2 with
        | .text _ => Except.ok acc
        | .elem n2 _ _ =>
          if n2 == "span" && Tag.getAttr t2 "class" == some "gs_fl" then parseLinks site acc t2
          else Except.ok acc) a1
    else Except.ok a1

/-- Baseline `_parse_article` body before the emission guard. -/
def buildBase (site : String) (div : Tag) : Except PyErr Article :=
  div.children.foldlM (stepBase site) initArticle

/-- The shared emission guard `if self.article['title']: self.handle_article(...)`:
`some` = the record was emitted, `none` = discarded. -/
def guardEmit (b : Except PyErr Article) : Except PyErr (Option Article) :=
  b >>= fun a => Except.ok (if truthy (a.get "title") then some a else Option.none)

/-- Baseline `ScholarParser._parse_article`. -/
def parseOneBase (site : String) (div : Tag) : Except PyErr (Option Article) :=
  guardEmit (buildBase site div)

/-- One child iteration of `ScholarParser120201._parse_article`. -/
def stepA (site : String) (a : Article) (tag : Tag) : Except PyErr Article :=
  match tag with
  | .text _ => Except.ok a
  | .elem name _ _ =>
    (if name == "h3" && Tag.getAttr tag "class" == some "gs_rt" then
       match Tag.findFirst tag (fun t => t.nameIs "a") with
       | Option.none => Except.ok a
       | some anchor => titleUrlFromAnchor site a anchor
     else Except.ok a) >>= fun a1 =>
    (if name == "div" && Tag.getAttr tag "class" == some "gs_a" then
       Except.ok (a1.set "year" (yearVal (Tag.getText tag)))
     else Except.ok a1) >>= fun a2 =>
    if name == "div" && Tag.getAttr tag "class" == some "gs_fl" then parseLinks site a2 tag
    else Except.ok a2

/-- `ScholarParser120201._parse_article` body before the guard. -/
def buildA (site : String) (div : Tag) : Except PyErr Article :=
  div.children.foldlM (stepA site) initArticle

/-- `ScholarParser120201._parse_article`. -/
def parseOneA (site : String) (div : Tag) : Except PyErr (Option Article) :=
  guardEmit (buildA site div)

/-- `tag.find('div', {'class': 'gs_a'})` predicate. -/
def gsaCheck (t : Tag) : Bool := t.nameIs "div" && t.getAttr "class" == some "gs_a"

/-- `tag.find('div', {'class': 'gs_fl'})` predicate. -/
def gsflCheck (t : Tag) : Bool := t.nameIs "div" && t.getAttr "class" == some "gs_fl"

/-- One child iteration of `ScholarParser120726._parse_article`: everything
is nested under a `div.gs_ri` container. -/
def stepB (site : String) (a : Article) (tag : Tag) : Except PyErr Article :=
  match tag with
  | .text _ => Except.ok a
  | .elem name _ _ =>
    if name == "div" && Tag.getAttr tag "class" == some "gs_ri" then
      (match Tag.findFirst tag (fun t => t.nameIs "a") with
       | Option.none => Except.ok a
       | some anchor => titleUrlFromAnchor site a anchor) >>= fun a1 =>
      (match Tag.findFirst tag gsaCheck with
       | Option.none => Except.ok a1
       | some gsa => Except.ok (a1.set "year" (yearVal (Tag.getText gsa)))) >>= fun a2 =>
      match Tag.findFirst tag gsflCheck with
      | Option.none => Except.ok a2
      | some gsfl => parseLinks site a2 gsfl
    else Except.ok a

/-- `ScholarParser120726._parse_article` body before the guard. -/
def buildB (site : String) (div : Tag) : Except PyErr Article :=
  div.children.foldlM (stepB site) initArticle

/-- `ScholarParser120726._parse_article` (the variant the querier uses). -/
def parseOneB (site : String) (div : Tag) : Except PyErr (Option Article) :=
  guardEmit (buildB site div)

/-- `ScholarParser._tag_checker`: `div.gs_r` blocks (shared by all three
`ScholarParser` variants, which only override `_parse_article`). -/
def checkerGsR (t : Tag) : Bool := t.nameIs "div" && t.getAttr "class" == some "gs_r"

/-- `CitationParser._tag_checker`: `tr` with class `cit-table item`. -/
def trCheckerCit (t : Tag) : Bool := t.nameIs "tr" && t.getAttr "class" == some "cit-table item"

/-- `ViewCitationParser._tag_checker`: `td` with class `cit-contentcell`. -/
def tdCheckerCit (t : Tag) : Bool := t.nameIs "td" && t.getAttr "class" == some "cit-contentcell"

/-! ### Citation-detail flow (`ViewCitationParser`, `CitationParser`) -/

/-- The keys the detail parse can put into `article_info`: `'url'` is set
unconditionally once the container is found (line 328); `'url_versions'`
and `'num_versions'` are set together per matching cluster link. -/
structure CitInfo where
  url : PyVal
  versions : Option (PyVal × PyVal)
deriving DecidableEq, Repr

/-- One iteration of the cluster-link loop in `ViewCitationParser.parse`:
`'&cluster=' in url` raises `TypeError` when `url` is `None`. -/
def clusterLinkStep (acc : Option (PyVal × PyVal)) (link : Tag) : Except PyErr (Option (PyVal × PyVal)) :=
  match Tag.getAttr link "href" with
  | Option.none => Except.error PyErr.typeError
  | some url =>
    if strContains url "&cluster=" && !(strEndsWith url "&btnI=Lucky") then
      match (pyWords (Tag.getText link)).get? 1 with
      | Option.none => Except.error PyErr.indexError
      | some tok => Except.ok (some (asInt tok, PyVal.str url))
    else Except.ok acc

/-- `ViewCitationParser.parse`: a missing `td.cit-contentcell` container (or
missing `id='title'` element or its anchor) raises `AttributeError` through
the subsequent attribute access on `None`. -/
def viewCitationParse (doc : Tag) : Except PyErr CitInfo :=
  match Tag.findFirst doc tdCheckerCit with
  | Option.none => Except.error PyErr.attributeError
  | some td =>
    (match Tag.findFirst td (fun t => t.getAttr "id" == some "title") with
     | Option.none => Except.error PyErr.attributeError
     | some titleTag =>
       match Tag.findFirst titleTag (fun t => t.nameIs "a") with
       | Option.none => Except.error PyErr.attributeError
       | some anchor =>
         Except.ok (match Tag.getAttr anchor "href" with
                    | some h => PyVal.str h
                    | Option.none => PyVal.none)) >>= fun urlVal =>
    (td.findAll (fun t => t.nameIs "a")).foldlM clusterLinkStep Option.none >>= fun vers =>
    Except.ok ⟨urlVal, vers⟩

/-- `ScholarQuerier.query_citation_view`: one transport round trip, then the
detail parse. -/
def queryCitationView (fetch : String → Tag) (url : String) : Except PyErr CitInfo :=
  viewCitationParse (fetch url)

/-- The author/journal spans step of `CitationParser._parse_article`. -/
def citSpansStep (a : Article) (ta : Tag) : Article :=
  match ta.findAll (fun t => t.nameIs "span") with
  | [] => a
  | s0 :: rest =>
    let a1 := a.set "authors" (PyVal.str (Tag.getText s0))
    match rest with
    | s1 :: _ => a1.set "journal" (PyVal.str (Tag.getText s1))
    | [] => a1

/-- The citations-cell step of `CitationParser._parse_article`; a missing
`col-citedby` cell raises `AttributeError` at `tag_citations.getText()`. -/
def citCitationsStep (a : Article) (tagCitations : Option Tag) : Except PyErr Article :=
  match tagCitations with
  | Option.none => Except.error PyErr.attributeError
  | some tc =>
    if Tag.getText tc != "" then
      match Tag.findFirst tc (fun t => t.nameIs "a") with
      | Option.none => Except.error PyErr.attributeError
      | some ca =>
        let a1 := a.set "num_citations" (asInt (Tag.getText ca))
        match Tag.getAttr ca "href" with
        | Option.none => Except.error PyErr.attributeError
        | some h => Except.ok (a1.set "url_citations" (PyVal.str (pathToUrl scholarSite h)))
    else Except.ok a

/-- `CitationParser._parse_article` body before the emission guard.  The
nested `ScholarQuerier(self).query_citation_view(url)` is the `fetch`-plus-
parse pair; `_path2url(None)` raises `AttributeError` inside `startswith`. -/
def buildCit (fetch : String → Tag) (tr : Tag) : Except PyErr Article :=
  match Tag.findFirst tr (fun t => t.getAttr "id" == some "col-title") with
  | Option.none => Except.error PyErr.attributeError
  | some ta =>
    match Tag.findFirst ta (fun t => t.nameIs "a") with
    | Option.none => Except.error PyErr.attributeError
    | some anchor =>
      let a1 := initArticle.set "title" (PyVal.str (Tag.getText anchor))
      (match Tag.getAttr anchor "href" with
       | Option.none => Except.error PyErr.attributeError
       | some h => Except.ok (pathToUrl scholarSite h)) >>= fun url =>
      queryCitationView fetch url >>= fun info =>
      let a2 := a1.set "url" info.url
      let a3 := match info.versions with
                | some (nv, uv) => (a2.set "num_versions" nv).set "url_versions" uv
                | Option.none => a2
      let a4 := citSpansStep a3 ta
      citCitationsStep a4 (Tag.findFirst tr (fun t => t.getAttr "id" == some "col-citedby")) >>= fun a5 =>
      match Tag.findFirst tr (fun t => t.getAttr "id" == some "col-year") with
      | Option.none => Except.error PyErr.attributeError
      | some ty => Except.ok (a5.set "year" (PyVal.str (Tag.getText ty)))

/-- `CitationParser._parse_article` with its emission guard. -/
def parseOneCit (fetch : String → Tag) (tr : Tag) : Except PyErr (Option Article) :=
  guardEmit (buildCit fetch tr)

/-! ### Orchestrator (`ScholarQuerier`) -/

/-- The per-block loop of `parse`: each emitted record is appended to
`self.articles` (`add_article`); an exception aborts the loop but keeps
what was already appended. -/
def runBlocks (parseOne : Tag → Except PyErr (Option Article)) :
    List Tag → List Article → List Article × Option PyErr
  | [], acc => (acc, Option.none)
  | d :: ds, acc =>
    match parseOne d with
    | Except.error e => (acc, some e)
    | Except.ok Option.none => runBlocks parseOne ds acc
    | Except.ok (some a) => runBlocks parseOne ds (acc ++ [a])

/-- `ScholarParser.parse` (shared by the variants): run `_parse_article`
over every matching block, starting from an empty collection. -/
def scholarParse (parseOne : Tag → Except PyErr (Option Article)) (checker : Tag → Bool)
    (doc : Tag) : List Article × Option PyErr :=
  runBlocks parseOne (doc.findAll checker) []

/-- `AuthorParser.PAGE_SIZE`. -/
def authorPageSize : String := "&view_op=list_works&pagesize=100"

/-- `self.author_url_pattern`. -/
def authorUrlPattern : String := "/citations?user="

/-- The anchor loop of `AuthorParser.parse`: `SCHOLAR_SITE + link.get('href')`
raises `TypeError` when the anchor has no `href`; the loop returns the
first resolved URL containing the profile marker, else falls through
returning `None`. -/
def authorParseLoop : List Tag → Except PyErr (Option String)
  | [] => Except.ok Option.none
  | link :: rest =>
    match Tag.getAttr link "href" with
    | Option.none => Except.error PyErr.typeError
    | some h =>
      let s := scholarSite ++ h ++ authorPageSize
      if strContains s authorUrlPattern then Except.ok (some s) else authorParseLoop rest

/-- `AuthorParser.parse`. -/
def authorParse (doc : Tag) : Except PyErr (Option String) :=
  authorParseLoop (doc.findAll (fun t => t.nameIs "a"))

/-- `ScholarQuerier.parse_citation_page`. -/
def parseCitationPage (fetch : String → Tag) (doc : Tag) : List Article × Option PyErr :=
  runBlocks (parseOneCit fetch) (doc.findAll trCheckerCit) []

/-- `ScholarQuerier.query_author`: clear the collection, fetch the author
search page, scan it; when the scan yields `None` the subsequent
`urllib2.Request(url=None)` raises `AttributeError` (`None.strip()` inside
`urllib.unwrap`) before any further fetch; otherwise fetch the profile URL
and parse the citation rows.  Result: final collection plus the escaped
exception, if any. -/
def queryAuthor (fetch : String → Tag) (searchUrl : String) : List Article × Option PyErr :=
  let html := fetch searchUrl
  match authorParse html with
  | Except.error e => ([], some e)
  | Except.ok Option.none => ([], some PyErr.attributeError)
  | Except.ok (some authorUrl) => parseCitationPage fetch (fetch authorUrl)

/-- `ScholarQuerier.SCHOLAR_URL`. -/
def SCHOLAR_URL : String :=
  "http://scholar.google.com/scholar?hl=en&q=%(query)s+author:%(author)s&btnG=Search&as_subj=eng&as_sdt=1,5&as_ylo=&as_vis=0"

/-- `ScholarQuerier.NOAUTH_URL`. -/
def NOAUTH_URL : String :=
  "http://scholar.google.com/scholar?hl=en&q=%(query)s&btnG=Search&as_subj=eng&as_std=1,5&as_ylo=&as_vis=0"

/-- `ScholarQuerier.SEARCH_AUTHOR_URL`. -/
def SEARCH_AUTHOR_URL : String :=
  "http://scholar.google.com/citations?hl=en&view_op=search_authors&mauthors=%(author)s"

/-- `self.count = min(count, 100)` in `ScholarQuerier.__init__`. -/
def clipCount (count : Int) : Int := min count 100

/-- URL-template selection in `ScholarQuerier.__init__`; `scholar_url or
self.SCHOLAR_URL` falls back on both `None` and the empty string. -/
def baseScholarUrl (author : String) (scholarUrl : Option String) (searchAuthor : Bool) : String :=
  if author == "" then NOAUTH_URL
  else if searchAuthor then SEARCH_AUTHOR_URL
  else
    match scholarUrl with
    | some s => if s == "" then SCHOLAR_URL else s
    | Option.none => SCHOLAR_URL

/-- `self.scholar_url` after `__init__`: the `&num=%d` suffix is appended
exactly when `self.count != 0`. -/
def querierScholarUrl (author : String) (scholarUrl : Option String) (count : Int)
    (searchAuthor : Bool) : String :=
  let u := baseScholarUrl author scholarUrl searchAuthor
  if clipCount count != 0 then u ++ "&num=" ++ toString (clipCount count) else u

/-- `ScholarQuerier.query` after the fetch: parse with the `Parser`
subclass of `ScholarParser120726`; the stored count cap is not consulted. -/
def querierQuery (count : Int) (doc : Tag) : List Article × Option PyErr :=
  scholarParse (parseOneB scholarSite) checkerGsR doc

/-- The records `_parse_article` emits for a document, in document order. -/
def emittedB (doc : Tag) : List Article :=
  (doc.findAll checkerGsR).filterMap (fun d =>
    match parseOneB scholarSite d with
    | Except.ok (some a) => some a
    | _ => Option.none)

/-- The truncation in the rendering helper `txt` (same in `csv`):
`articles[:count] if count > 0`. -/
def txtShown (count : Int) (arts : List Article) : List Article :=
  if count > 0 then arts.take count.toNat else arts

/-! ### Python `str.split(sep)` (explicit separator), fuel-structured -/

/-- Worker for `s.split(sep)`: leftmost non-overlapping separator matches;
the fuel equals the remaining string length so each step consumes fuel in
lockstep with at least one character. -/
def splitGo (sep : List Char) : Nat → List Char → List (List Char)
  | _, [] => [[]]
  | 0, s => [s]
  | Nat.succ fuel, c :: rest =>
    if sep ≠ [] ∧ sep.isPrefixOf (c :: rest) then
      [] :: splitGo sep fuel ((c :: rest).drop sep.length)
    else
      match splitGo sep fuel rest with
      | [] => [[c]]
      | t :: ts => (c :: t) :: ts

/-- Python `s.split(sep)` for a non-empty separator. -/
def pySplit (sep s : List Char) : List (List Char) := splitGo sep s.length s

/-! ### Helper lemmas -/

theorem isPrefixOf_of_le {p q l : List Char} (hp : p.isPrefixOf l = true)
    (hq : q.isPrefixOf l = true) (hlen : p.length ≤ q.length) : p.isPrefixOf q = true := by
  induction l generalizing p q with
  | nil =>
    cases p with
    | nil => cases q <;> simp [List.isPrefixOf]
    | cons a as => simp [List.isPrefixOf] at hp
  | cons b bs ih =>
    cases p with
    | nil => simp [List.isPrefixOf]
    | cons a as =>
      cases q with
      | nil => simp at hlen
      | cons c cs =>
        simp only [List.isPrefixOf, Bool.and_eq_true, beq_iff_eq] at hp hq ⊢
        exact ⟨hp.1.trans hq.1.symm, ih hp.2 hq.2 (by simpa using hlen)⟩

/-- An href that starts with the citations prefix cannot also start with
the cluster prefix. -/
theorem cites_cluster_mutually_exclusive (h : String)
    (h1 : strStartsWith h "/scholar?cites" = true) :
    strStartsWith h "/scholar?cluster" = false := by
  cases hq : strStartsWith h "/scholar?cluster" with
  | false => rfl
  | true =>
    have hp : ("/scholar?cites".data).isPrefixOf h.data = true := h1
    have hq2 : ("/scholar?cluster".data).isPrefixOf h.data = true := hq
    have := isPrefixOf_of_le hp hq2 (by decide)
    exact absurd this (by decide)

theorem guardEmit_some {b : Except PyErr Article} {a : Article}
    (h : guardEmit b = Except.ok (some a)) : truthy (a.get "title") = true := by
  cases b with
  | error e => simp [guardEmit, Bind.bind, Except.bind] at h
  | ok x =>
    simp only [guardEmit, Bind.bind, Except.bind, Except.ok.injEq] at h
    cases ht : truthy (x.get "title") with
    | false => rw [ht] at h; simp at h
    | true => rw [ht] at h; simp at h; rw [← h]; exact ht

theorem guardEmit_iff (b : Except PyErr Article) (x : Article) (hb : b = Except.ok x) :
    guardEmit b = Except.ok (some x) ↔ truthy (x.get "title") = true := by
  subst hb
  constructor
  · exact fun h => guardEmit_some h
  · intro ht
    simp [guardEmit, Bind.bind, Except.bind, ht]

theorem runBlocks_titles {parseOne : Tag → Except PyErr (Option Article)}
    (hp : ∀ d a, parseOne d = Except.ok (some a) → truthy (a.get "title") = true) :
    ∀ (bs : List Tag) (acc : List Article),
      (∀ x ∈ acc, truthy (x.get "title") = true) →
      ∀ a ∈ (runBlocks parseOne bs acc).1, truthy (a.get "title") = true := by
  intro bs
  induction bs with
  | nil =>
    intro acc hacc a ha
    exact hacc a (by simpa [runBlocks] using ha)
  | cons d ds ih =>
    intro acc hacc a ha
    simp only [runBlocks] at ha
    cases hpd : parseOne d with
    | error e =>
      rw [hpd] at ha
      exact hacc a (by simpa using ha)
    | ok o =>
      cases o with
      | none =>
        rw [hpd] at ha
        exact ih acc hacc a ha
      | some x =>
        rw [hpd] at ha
        refine ih (acc ++ [x]) ?_ a ha
        intro y hy
        rcases List.mem_append.mp hy with h1 | h1
        · exact hacc y h1
        · have hyx : y = x := by simpa using h1
          rw [hyx]
          exact hp d x hpd

theorem runBlocks_no_error (parseOne : Tag → Except PyErr (Option Article)) :
    ∀ (bs : List Tag) (acc : List Article),
      (runBlocks parseOne bs acc).2 = Option.none →
      (runBlocks parseOne bs acc).1
        = acc ++ bs.filterMap (fun d =>
            match parseOne d with
            | Except.ok (some a) => some a
            | _ => Option.none) := by
  intro bs
  induction bs with
  | nil => intro acc _; simp [runBlocks]
  | cons d ds ih =>
    intro acc herr
    simp only [runBlocks] at herr ⊢
    cases hpd : parseOne d with
    | error e => rw [hpd] at herr; simp at herr
    | ok o =>
      cases o with
      | none =>
        rw [hpd] at herr
        rw [ih acc herr]
        simp [List.filterMap_cons, hpd]
      | some x =>
        rw [hpd] at herr
        rw [ih (acc ++ [x]) herr]
        simp [List.filterMap_cons, hpd]

theorem insByIdx_length (e : Entry) (l : List Entry) :
    (insByIdx e l).length = l.length + 1 := by
  induction l with
  | nil => rfl
  | cons x xs ih =>
    by_cases hx : e.idx ≤ x.idx
    · simp [insByIdx, hx]
    · simp [insByIdx, hx, ih]

theorem sortByIdx_length (l : List Entry) : (sortByIdx l).length = l.length := by
  induction l with
  | nil => rfl
  | cons x xs ih => simp [sortByIdx, insByIdx_length, ih]

theorem mem_insByIdx {x e : Entry} {l : List Entry} :
    x ∈ insByIdx e l ↔ x = e ∨ x ∈ l := by
  induction l with
  | nil => simp [insByIdx]
  | cons y ys ih =>
    by_cases hy : e.idx ≤ y.idx
    · simp [insByIdx, hy]
    · simp [insByIdx, hy, ih]
      tauto

theorem mem_sortByIdx {x : Entry} {l : List Entry} : x ∈ sortByIdx l ↔ x ∈ l := by
  induction l with
  | nil => simp [sortByIdx]
  | cons y ys ih => simp [sortByIdx, mem_insByIdx, ih]

theorem insByIdx_append_big (x e : Entry) (s : List Entry) (hx : x.idx ≤ e.idx) :
    insByIdx x (s ++ [e]) = insByIdx x s ++ [e] := by
  induction s with
  | nil => simp [insByIdx, hx]
  | cons y ys ih =>
    by_cases hxy : x.idx ≤ y.idx
    · simp [insByIdx, hxy]
    · simp [insByIdx, hxy, ih]

theorem sortByIdx_append_big (l : List Entry) (e : Entry) (h : ∀ x ∈ l, x.idx < e.idx) :
    sortByIdx (l ++ [e]) = sortByIdx l ++ [e] := by
  induction l with
  | nil => simp [sortByIdx, insByIdx]
  | cons x xs ih =>
    have hx : x.idx ≤ e.idx := le_of_lt (h x (by simp))
    have h1 : sortByIdx ((x :: xs) ++ [e]) = insByIdx x (sortByIdx (xs ++ [e])) := rfl
    have h2 : sortByIdx (x :: xs) = insByIdx x (sortByIdx xs) := rfl
    rw [h1, h2, ih (fun y hy => h y (by simp [hy]))]
    exact insByIdx_append_big x e (sortByIdx xs) hx

theorem splitGo_no_sep (c : Char) :
    ∀ (v : List Char), c ∉ v → splitGo [c] v.length v = [v] := by
  intro v
  induction v with
  | nil => intro _; rfl
  | cons d v ih =>
    intro hc
    have hcd : (c == d) = false := by
      simp only [beq_eq_false_iff_ne, ne_eq]
      intro hcontra
      exact hc (by rw [hcontra]; exact List.mem_cons_self d v)
    have hguard : ¬ (([c] : List Char) ≠ [] ∧ ([c].isPrefixOf (d :: v)) = true) := by
      intro hcontra
      have := hcontra.2
      simp [List.isPrefixOf, hcd] at this
    simp only [List.length_cons, splitGo, hguard, if_false]
    rw [ih (fun hm => hc (List.mem_cons_of_mem d hm))]

theorem splitGo_cons_sep (c : Char) :
    ∀ (v s : List Char), c ∉ v →
      splitGo [c] (v ++ c :: s).length (v ++ c :: s) = v :: splitGo [c] s.length s := by
  intro v
  induction v with
  | nil =>
    intro s _
    show splitGo [c] (s.length + 1) (c :: s) = [] :: splitGo [c] s.length s
    simp [splitGo, List.isPrefixOf]
  | cons d v ih =>
    intro s hc
    have hcd : (c == d) = false := by
      simp only [beq_eq_false_iff_ne, ne_eq]
      intro hcontra
      exact hc (by rw [hcontra]; exact List.mem_cons_self d v)
    have hguard : ¬ (([c] : List Char) ≠ [] ∧ ([c].isPrefixOf (d :: (v ++ c :: s))) = true) := by
      intro hcontra
      have := hcontra.2
      simp [List.isPrefixOf, hcd] at this
    show splitGo [c] ((v ++ c :: s).length + 1) (d :: (v ++ c :: s))
        = (d :: v) :: splitGo [c] s.length s
    have key : splitGo [c] ((v ++ c :: s).length + 1) (d :: (v ++ c :: s))
        = match splitGo [c] (v ++ c :: s).length (v ++ c :: s) with
          | [] => [[d]]
          | t :: ts => (d :: t) :: ts := by
      simp only [splitGo, hguard, if_false]
    rw [key, ih s (fun hm => hc (List.mem_cons_of_mem d hm))]

theorem pySplit_no_sep (c : Char) (v : List Char) (hc : c ∉ v) : pySplit [c] v = [v] :=
  splitGo_no_sep c v hc

theorem pySplit_cons_sep (c : Char) (v s : List Char) (hc : c ∉ v) :
    pySplit [c] (v ++ c :: s) = v :: pySplit [c] s :=
  splitGo_cons_sep c v s hc

theorem pySplit_joinSep (c : Char) :
    ∀ (vals : List (List Char)), vals ≠ [] → (∀ v ∈ vals, c ∉ v) →
      pySplit [c] (joinSep [c] vals) = vals := by
  intro vals
  induction vals with
  | nil => intro h _; exact absurd rfl h
  | cons v rest ih =>
    intro _ hfree
    cases rest with
    | nil =>
      simp only [joinSep]
      rw [pySplit_no_sep c v (hfree v (by simp))]
    | cons v2 vs =>
      have hjoin : joinSep [c] (v :: v2 :: vs) = v ++ c :: joinSep [c] (v2 :: vs) := by
        simp [joinSep]
      rw [hjoin, pySplit_cons_sep c v _ (hfree v (by simp))]
      rw [ih (by simp) (fun w hw => hfree w (List.mem_cons_of_mem v hw))]

/-! ### Claims -/

/-- C6: for every path string, `_path2url` returns the path unchanged if it
starts with `http://`; otherwise it returns the configured site origin
concatenated with the path, first prefixing the path with `/` when that
slash is missing. -/
theorem claim_c6_path_to_url (site path : String) :
    (strStartsWith path "http://" = true → pathToUrl site path = path)
    ∧ (strStartsWith path "http://" = false → strStartsWith path "/" = true →
        pathToUrl site path = site ++ path)
    ∧ (strStartsWith path "http://" = false → strStartsWith path "/" = false →
        pathToUrl site path = site ++ ("/" ++ path)) := by
  refine ⟨fun h1 => ?_, fun h1 h2 => ?_, fun h1 h2 => ?_⟩
  · simp [pathToUrl, h1]
  · simp [pathToUrl, h1, h2]
  · simp [pathToUrl, h1, h2]

/-- C6 witness: concrete evaluations of the three branches. -/
theorem claim_c6_witness :
    (strStartsWith "http://x.org/a" "http://" = true
      ∧ pathToUrl scholarSite "http://x.org/a" = "http://x.org/a")
    ∧ (strStartsWith "/scholar?q=x" "http://" = false
      ∧ strStartsWith "/scholar?q=x" "/" = true
      ∧ pathToUrl scholarSite "/scholar?q=x" = scholarSite ++ "/scholar?q=x")
    ∧ (strStartsWith "scholar?q=x" "http://" = false
      ∧ strStartsWith "scholar?q=x" "/" = false
      ∧ pathToUrl scholarSite "scholar?q=x" = scholarSite ++ ("/" ++ "scholar?q=x")) :=
  ⟨⟨by rfl, (claim_c6_path_to_url scholarSite "http://x.org/a").1 (by rfl)⟩,
   ⟨by rfl, by rfl, (claim_c6_path_to_url scholarSite "/scholar?q=x").2.1 (by rfl) (by rfl)⟩,
   ⟨by rfl, by rfl, (claim_c6_path_to_url scholarSite "scholar?q=x").2.2 (by rfl) (by rfl)⟩⟩

/-- C4 counterexample: the claim says inputs below 0 are clamped to 0, but
`min(-1, 100) = -1`, so the stored cap is negative and the URL even gets a
`&num=-1` suffix. -/
theorem claim_c4_counterexample :
    clipCount (-1) = -1
    ∧ clipCount (-1) < 0
    ∧ clipCount (-1) ≠ 0
    ∧ querierScholarUrl "" Option.none (-1) false = NOAUTH_URL ++ "&num=" ++ "-1" := by
  refine ⟨by decide, by decide, by decide, ?_⟩
  rfl

/-- C4 amended: the stored cap is `min(count, 100)` — clipped above at 100,
but negative inputs pass through unchanged — and the `&num=` suffix is
appended exactly when the stored cap is nonzero. -/
theorem claim_c4_count_clip (author : String) (scholarUrl : Option String) (count : Int)
    (searchAuthor : Bool) :
    (100 ≤ count → clipCount count = 100)
    ∧ (count ≤ 100 → clipCount count = count)
    ∧ (clipCount count ≠ 0 →
        querierScholarUrl author scholarUrl count searchAuthor
          = baseScholarUrl author scholarUrl searchAuthor ++ "&num=" ++ toString (clipCount count))
    ∧ (clipCount count = 0 →
        querierScholarUrl author scholarUrl count searchAuthor
          = baseScholarUrl author scholarUrl searchAuthor) := by
  refine ⟨fun h => ?_, fun h => ?_, fun h => ?_, fun h => ?_⟩
  · simp [clipCount, min_eq_right h]
  · simp [clipCount, min_eq_left h]
  · simp [querierScholarUrl, h]
  · simp [querierScholarUrl, h]

/-- C4 witness: concrete clips and URL suffixes. -/
theorem claim_c4_witness :
    clipCount 150 = 100
    ∧ clipCount 20 = 20
    ∧ querierScholarUrl "" Option.none 20 false
        = baseScholarUrl "" Option.none false ++ "&num=" ++ toString (clipCount 20)
    ∧ querierScholarUrl "" Option.none 0 false = baseScholarUrl "" Option.none false :=
  ⟨(claim_c4_count_clip "" Option.none 150 false).1 (by decide),
   (claim_c4_count_clip "" Option.none 20 false).2.1 (by decide),
   (claim_c4_count_clip "" Option.none 20 false).2.2.1 (by decide),
   (claim_c4_count_clip "" Option.none 0 false).2.2.2 (by decide)⟩

theorem updateFirst_decomp (k : String) (v : PyVal) :
    ∀ (l : List Entry), l.any (fun e => e.key == k) = true →
      ∃ pre e post,
        l = pre ++ e :: post
        ∧ (∀ x ∈ pre, x.key ≠ k)
        ∧ e.key = k
        ∧ updateFirst k v l = pre ++ { e with val := v } :: post := by
  intro l
  induction l with
  | nil => intro h; simp at h
  | cons e es ih =>
    intro h
    by_cases hk : e.key = k
    · refine ⟨[], e, es, by simp, by simp, hk, ?_⟩
      simp [updateFirst, hk]
    · have hk2 : (e.key == k) = false := by simp [hk]
      have hes : es.any (fun x => x.key == k) = true := by
        simpa [List.any_cons, hk2] using h
      obtain ⟨pre, e2, post, hdec, hpre, hkey, hupd⟩ := ih hes
      refine ⟨e :: pre, e2, post, by simp [hdec], ?_, hkey, ?_⟩
      · intro x hx
        rcases List.mem_cons.mp hx with h1 | h1
        · rw [h1]; exact hk
        · exact hpre x h1
      · simp [updateFirst, hk2, hupd]

/-- C9: `set` on an existing key changes only that field's stored value:
its label and display index and every other entry are untouched.  The
record's entry list decomposes around the first entry with the key, and
the updated list is the same decomposition with only `val` replaced. -/
theorem claim_c9_set_frame (r : Article) (k : String) (v : PyVal)
    (h : r.attrs.any (fun e => e.key == k) = true) :
    ∃ pre e post,
      r.attrs = pre ++ e :: post
      ∧ (∀ x ∈ pre, x.key ≠ k)
      ∧ e.key = k
      ∧ (r.set k v).attrs = pre ++ { e with val := v } :: post
      ∧ (r.set k v).attrs.length = r.attrs.length := by
  obtain ⟨pre, e, post, hdec, hpre, hkey, hupd⟩ := updateFirst_decomp k v r.attrs h
  have hset : (r.set k v).attrs = pre ++ { e with val := v } :: post := by
    simp [Article.set, h, hupd]
  refine ⟨pre, e, post, hdec, hpre, hkey, hset, ?_⟩
  rw [hset, hdec]
  simp

/-- C9 witness: overwriting `title` on a fresh record. -/
theorem claim_c9_witness :
    initArticle.attrs.any (fun e => e.key == "title") = true
    ∧ ∃ pre e post,
        initArticle.attrs = pre ++ e :: post
        ∧ (∀ x ∈ pre, x.key ≠ "title")
        ∧ e.key = "title"
        ∧ (initArticle.set "title" (PyVal.str "T")).attrs
            = pre ++ { e with val := PyVal.str "T" } :: post
        ∧ (initArticle.set "title" (PyVal.str "T")).attrs.length = initArticle.attrs.length :=
  ⟨by decide, claim_c9_set_frame initArticle "title" (PyVal.str "T") (by decide)⟩

/-- Concrete anchor for C2: href has the citations prefix, visible text is
`Cited by many`, whose trailing token is not an integer. -/
def cexAnchor : Tag :=
  Tag.elem "a" [("href", "/scholar?cites=1")] [Tag.text "Cited by many"]

/-- Concrete actions span holding `cexAnchor`. -/
def cexSpan : Tag := Tag.elem "span" [("class", "gs_fl")] [cexAnchor]

/-- C2 counterexample: on a `Cited by <non-integer>` anchor the classifier
does not leave `num_citations` at its prior value 0 — it overwrites it with
`None` (the `_as_int` failure result). -/
theorem claim_c2_counterexample :
    parseLinks scholarSite initArticle cexSpan
      = Except.ok ((initArticle.set "num_citations" PyVal.none).set "url_citations"
          (PyVal.str "http://scholar.google.com/scholar?cites=1"))
    ∧ ((initArticle.set "num_citations" PyVal.none).set "url_citations"
          (PyVal.str "http://scholar.google.com/scholar?cites=1")).get "num_citations"
        = PyVal.none
    ∧ initArticle.get "num_citations" = PyVal.int 0
    ∧ PyVal.none ≠ PyVal.int 0 :=
  ⟨by rfl, by rfl, by rfl, by decide⟩

/-- C2 amended: for an anchor with the citations-prefix href whose text
starts with `Cited by` and whose trailing token fails integer parsing, the
classifier raises nothing but stores the absent value `None` into
`num_citations` (overwriting the default 0), and still sets
`url_citations`. -/
theorem claim_c2_failed_parse_sets_none (site : String) (art : Article)
    (attrs : List (String × String)) (cs : List Tag) (href s tok : String)
    (hhref : Tag.getAttr (Tag.elem "a" attrs cs) "href" = some href)
    (hcites : strStartsWith href "/scholar?cites" = true)
    (hstr : Tag.string? (Tag.elem "a" attrs cs) = some s)
    (hcited : strStartsWith s "Cited by" = true)
    (htok : (pyWords s).getLast? = some tok)
    (hfail : pyInt tok = Option.none) :
    parseLinkTag site art (Tag.elem "a" attrs cs)
      = Except.ok ((art.set "num_citations" PyVal.none).set "url_citations"
          (PyVal.str (pathToUrl site href))) := by
  have hcl := cites_cluster_mutually_exclusive href hcites
  simp [parseLinkTag, hhref, citesStep, clusterStep, hcites, hstr, hcited, htok, hcl,
    asInt, hfail, Bind.bind, Except.bind]

/-- C2 witness: the amended statement evaluated on the concrete anchor. -/
theorem claim_c2_witness :
    parseLinkTag scholarSite initArticle cexAnchor
      = Except.ok ((initArticle.set "num_citations" PyVal.none).set "url_citations"
          (PyVal.str (pathToUrl scholarSite "/scholar?cites=1"))) :=
  claim_c2_failed_parse_sets_none scholarSite initArticle
    [("href", "/scholar?cites=1")] [Tag.text "Cited by many"]
    "/scholar?cites=1" "Cited by many" "many"
    (by rfl) (by rfl) (by rfl) (by rfl) (by rfl) (by rfl)

/-- Record obtained by deleting `title` and then setting a fresh key: the
new entry's index is `len(attrs) = 8`, which ties with `journal`'s index. -/
def delThenSet : Article := (initArticle.del "title").set "note" (PyVal.str "x")

/-- C5 counterexample: after a delete, `set` on an unknown key does NOT
get an index strictly greater than every existing field — the fresh
`note` entry and the surviving `journal` entry both carry index 8. -/
theorem claim_c5_counterexample :
    ((initArticle.del "title").attrs.any (fun e => e.key == "note")) = false
    ∧ (delThenSet.attrs.find? (fun e => e.key == "note")).map (fun e => e.idx) = some 8
    ∧ (delThenSet.attrs.find? (fun e => e.key == "journal")).map (fun e => e.idx) = some 8
    ∧ ¬ (8 > 8) := by
  refine ⟨by rfl, by rfl, by rfl, by decide⟩

/-- C5 amended: `set` on an unknown key appends an entry with index equal
to the current field count; on any record all of whose indices are below
its field count (true at construction and preserved by `set`, but broken
by `delete`), that index strictly exceeds every existing index and the new
field renders last — the render order of the new record is the old render
order with the new entry appended.  The claim as stated fails once fields
have been deleted. -/
theorem claim_c5_append_order (r : Article) (k : String) (v : PyVal)
    (hidx : ∀ e ∈ r.attrs, e.idx < r.attrs.length)
    (hnew : (r.attrs.any (fun e => e.key == k)) = false) :
    (r.set k v).attrs = r.attrs ++ [⟨k, v, k, r.attrs.length⟩]
    ∧ (∀ e ∈ r.attrs, e.idx < (⟨k, v, k, r.attrs.length⟩ : Entry).idx)
    ∧ sortByIdx ((r.set k v).attrs) = sortByIdx r.attrs ++ [⟨k, v, k, r.attrs.length⟩]
    ∧ (∀ e ∈ (r.set k v).attrs, e.idx < (r.set k v).attrs.length) := by
  have hset : (r.set k v).attrs = r.attrs ++ [⟨k, v, k, r.attrs.length⟩] := by
    simp only [Article.set, hnew, Bool.false_eq_true, if_false]
  refine ⟨hset, hidx, ?_, ?_⟩
  · rw [hset]
    exact sortByIdx_append_big r.attrs ⟨k, v, k, r.attrs.length⟩ hidx
  · intro e he
    rw [hset] at he ⊢
    simp only [List.length_append, List.length_cons, List.length_nil]
    rcases List.mem_append.mp he with h1 | h1
    · exact lt_trans (hidx e h1) (Nat.lt_succ_self _)
    · have he2 : e = ⟨k, v, k, r.attrs.length⟩ := by simpa using h1
      rw [he2]
      exact Nat.lt_succ_self _

/-- C5 witness: appending `note` to a fresh record puts it last, at index 9. -/
theorem claim_c5_witness :
    (initArticle.set "note" (PyVal.str "x")).attrs
      = initArticle.attrs ++ [⟨"note", PyVal.str "x", "note", 9⟩]
    ∧ sortByIdx ((initArticle.set "note" (PyVal.str "x")).attrs)
      = sortByIdx initArticle.attrs ++ [⟨"note", PyVal.str "x", "note", 9⟩] :=
  ⟨(claim_c5_append_order initArticle "note" (PyVal.str "x") (by decide) (by decide)).1,
   (claim_c5_append_order initArticle "note" (PyVal.str "x") (by decide) (by decide)).2.2.1⟩

/-- C7 (amended to single-character separators): splitting the rendered
row on a separator character that occurs in none of the rendered values
recovers exactly the rendered values, in display order — in particular one
token per field. -/
theorem claim_c7_row_split (r : Article) (c : Char)
    (hne : r.attrs ≠ [])
    (hfree : ∀ e ∈ r.attrs, c ∉ (pyStr (r.get e.key)).data) :
    pySplit [c] (r.asCsvRowChars [c])
      = (sortByIdx r.attrs).map (fun e => (pyStr (r.get e.key)).data)
    ∧ (pySplit [c] (r.asCsvRowChars [c])).length = r.attrs.length := by
  have hvals : ∀ v ∈ (sortByIdx r.attrs).map (fun e => (pyStr (r.get e.key)).data), c ∉ v := by
    intro v hv
    obtain ⟨e, he, hve⟩ := List.mem_map.mp hv
    rw [← hve]
    exact hfree e (mem_sortByIdx.mp he)
  have hnil : (sortByIdx r.attrs).map (fun e => (pyStr (r.get e.key)).data) ≠ [] := by
    intro hcontra
    have h1 : sortByIdx r.attrs = [] := by simpa using hcontra
    have h2 : r.attrs.length = 0 := by
      rw [← sortByIdx_length]
      rw [h1]
      rfl
    exact hne (List.length_eq_zero.mp h2)
  have hmain : pySplit [c] (r.asCsvRowChars [c])
      = (sortByIdx r.attrs).map (fun e => (pyStr (r.get e.key)).data) :=
    pySplit_joinSep c _ hnil hvals
  refine ⟨hmain, ?_⟩
  rw [hmain]
  simp [sortByIdx_length]

/-- C7 witness: fresh record, separator `|`. -/
theorem claim_c7_witness :
    pySplit ['|'] (initArticle.asCsvRowChars ['|'])
      = (sortByIdx initArticle.attrs).map (fun e => (pyStr (initArticle.get e.key)).data)
    ∧ (pySplit ['|'] (initArticle.asCsvRowChars ['|'])).length = 9 :=
  ⟨(claim_c7_row_split initArticle '|' (by decide) (by decide)).1,
   (claim_c7_row_split initArticle '|' (by decide) (by decide)).2⟩

/-- Record whose first two rendered values are `xa` and `ax`: the two-char
separator `aa` occurs in neither value, yet spans their boundary. -/
def cexRecord : Article :=
  (initArticle.set "title" (PyVal.str "xa")).set "authors" (PyVal.str "ax")

/-- C7 counterexample (for the claim over arbitrary separators): with
separator `aa` — which occurs in none of the nine rendered values — the
re-split of the rendered row yields 10 tokens for 9 fields. -/
theorem claim_c7_counterexample :
    (∀ e ∈ cexRecord.attrs, listContainsSub ['a', 'a'] (pyStr (cexRecord.get e.key)).data = false)
    ∧ (pySplit ['a', 'a'] (cexRecord.asCsvRowChars ['a', 'a'])).length = 10
    ∧ cexRecord.attrs.length = 9 := by
  refine ⟨by decide, by decide, by decide⟩

/-- C1: in every parser variant a record is emitted through
`handle_article` iff its title is truthy (non-empty), and consequently the
accumulated result collection never contains a record with empty or
absent title.  The first four conjuncts cover the collections built by the
three `ScholarParser` variants and the `CitationParser`; the last four are
the per-block iff, for article bodies that parse without an exception. -/
theorem claim_c1_title_emission :
    (∀ site doc, ∀ a ∈ (scholarParse (parseOneBase site) checkerGsR doc).1,
        truthy (a.get "title") = true)
    ∧ (∀ site doc, ∀ a ∈ (scholarParse (parseOneA site) checkerGsR doc).1,
        truthy (a.get "title") = true)
    ∧ (∀ site doc, ∀ a ∈ (scholarParse (parseOneB site) checkerGsR doc).1,
        truthy (a.get "title") = true)
    ∧ (∀ (fetch : String → Tag) doc, ∀ a ∈ (parseCitationPage fetch doc).1,
        truthy (a.get "title") = true)
    ∧ (∀ site div x, buildBase site div = Except.ok x →
        (parseOneBase site div = Except.ok (some x) ↔ truthy (x.get "title") = true))
    ∧ (∀ site div x, buildA site div = Except.ok x →
        (parseOneA site div = Except.ok (some x) ↔ truthy (x.get "title") = true))
    ∧ (∀ site div x, buildB site div = Except.ok x →
        (parseOneB site div = Except.ok (some x) ↔ truthy (x.get "title") = true))
    ∧ (∀ (fetch : String → Tag) tr x, buildCit fetch tr = Except.ok x →
        (parseOneCit fetch tr = Except.ok (some x) ↔ truthy (x.get "title") = true)) := by
  refine ⟨?_, ?_, ?_, ?_, ?_, ?_, ?_, ?_⟩
  · intro site doc a ha
    exact runBlocks_titles (fun d x hx => guardEmit_some hx) _ [] (by simp) a ha
  · intro site doc a ha
    exact runBlocks_titles (fun d x hx => guardEmit_some hx) _ [] (by simp) a ha
  · intro site doc a ha
    exact runBlocks_titles (fun d x hx => guardEmit_some hx) _ [] (by simp) a ha
  · intro fetch doc a ha
    exact runBlocks_titles (fun d x hx => guardEmit_some hx) _ [] (by simp) a ha
  · intro site div x hb
    exact guardEmit_iff (buildBase site div) x hb
  · intro site div x hb
    exact guardEmit_iff (buildA site div) x hb
  · intro site div x hb
    exact guardEmit_iff (buildB site div) x hb
  · intro fetch tr x hb
    exact guardEmit_iff (buildCit fetch tr) x hb

/-- The spec's baseline scenario block:
`div.gs_r > [div.gs_rt > h3 > a("Deep Learning"), font > span.gs_fl > a("Cited by 42")]`. -/
def demoDiv : Tag :=
  Tag.elem "div" [("class", "gs_r")]
    [Tag.elem "div" [("class", "gs_rt")]
       [Tag.elem "h3" []
          [Tag.elem "a" [("href", "/scholar?q=x")] [Tag.text "Deep Learning"]]],
     Tag.elem "font" []
       [Tag.elem "span" [("class", "gs_fl")]
          [Tag.elem "a" [("href", "/scholar?cites=1")] [Tag.text "Cited by 42"]]]]

/-- The record the baseline parser builds from `demoDiv`. -/
def demoArt : Article :=
  ⟨[⟨"title", .str "Deep Learning", "Title", 0⟩,
    ⟨"authors", .none, "Authors", 1⟩,
    ⟨"url", .str "http://scholar.google.com/scholar?q=x", "URL", 2⟩,
    ⟨"num_citations", .int 42, "Citations", 3⟩,
    ⟨"num_versions", .int 0, "Versions", 4⟩,
    ⟨"url_citations", .str "http://scholar.google.com/scholar?cites=1", "Citations list", 5⟩,
    ⟨"url_versions", .none, "Versions list", 6⟩,
    ⟨"year", .none, "Year", 7⟩,
    ⟨"journal", .none, "Journal", 8⟩]⟩

/-- C1 witness: the scenario block builds `demoArt`, whose title is truthy,
and it is emitted. -/
theorem claim_c1_witness :
    buildBase scholarSite demoDiv = Except.ok demoArt
    ∧ truthy (demoArt.get "title") = true
    ∧ parseOneBase scholarSite demoDiv = Except.ok (some demoArt) :=
  ⟨by rfl, by rfl,
   (claim_c1_title_emission.2.2.2.2.1 scholarSite demoDiv demoArt (by rfl)).mpr (by rfl)⟩

/-- An author-search results page with anchors but no author-profile link. -/
def noProfileDoc : Tag :=
  Tag.elem "html" [] [Tag.elem "a" [("href", "/foo")] [Tag.text "not a profile"]]

/-- C3 counterexample: the claim says that with no matching anchor
`query_author` raises no error; in fact `AuthorParser.parse` returns `None`
and `query_author` then crashes building the next request from it. -/
theorem claim_c3_counterexample :
    authorParse noProfileDoc = Except.ok Option.none
    ∧ queryAuthor (fun _ => noProfileDoc) "http://search" = ([], some PyErr.attributeError) :=
  ⟨by rfl, by rfl⟩

/-- C3 amended: when the author-search page scan finds no matching anchor,
`query_author` raises an `AttributeError` to the caller (from
`urllib2.Request(url=None)`) without issuing the profile fetch, and the
result collection is empty at the fault. -/
theorem claim_c3_no_match_raises (fetch : String → Tag) (searchUrl : String)
    (h : authorParse (fetch searchUrl) = Except.ok Option.none) :
    queryAuthor fetch searchUrl = ([], some PyErr.attributeError) := by
  simp [queryAuthor, h]

/-- C3 witness: the amended statement on the concrete profile-less page. -/
theorem claim_c3_witness :
    queryAuthor (fun _ => noProfileDoc) "http://search2" = ([], some PyErr.attributeError) :=
  claim_c3_no_match_raises (fun _ => noProfileDoc) "http://search2" (by rfl)

/-- C8: a citation-detail page without the `td.cit-contentcell` container
makes `ViewCitationParser.parse` raise `AttributeError`; the fault
propagates uncaught through `query_citation_view` and
`CitationParser._parse_article`, so the row parse ends in the error rather
than emitting a partial record, and so does the row loop. -/
theorem claim_c8_missing_container_faults (doc : Tag)
    (h : Tag.findFirst doc tdCheckerCit = Option.none) :
    viewCitationParse doc = Except.error PyErr.attributeError
    ∧ (∀ fetch : String → Tag, (∀ u, fetch u = doc) →
        ∀ tr, parseOneCit fetch tr = Except.error PyErr.attributeError
          ∧ runBlocks (parseOneCit fetch) [tr] [] = ([], some PyErr.attributeError)) := by
  have hview : viewCitationParse doc = Except.error PyErr.attributeError := by
    simp [viewCitationParse, h]
  refine ⟨hview, ?_⟩
  intro fetch hf tr
  have hbuild : buildCit fetch tr = Except.error PyErr.attributeError := by
    cases hta : Tag.findFirst tr (fun t => t.getAttr "id" == some "col-title") with
    | none => simp [buildCit, hta]
    | some ta =>
      cases hanc : Tag.findFirst ta (fun t => t.nameIs "a") with
      | none => simp [buildCit, hta, hanc]
      | some anchor =>
        cases hhref : Tag.getAttr anchor "href" with
        | none => simp [buildCit, hta, hanc, hhref, Bind.bind, Except.bind]
        | some hrefv =>
          simp [buildCit, hta, hanc, hhref, Bind.bind, Except.bind, queryCitationView, hf,
            hview]
  constructor
  · simp [parseOneCit, guardEmit, hbuild, Bind.bind, Except.bind]
  · simp [runBlocks, parseOneCit, guardEmit, hbuild, Bind.bind, Except.bind]

/-- A detail page with no `td.cit-contentcell`. -/
def emptyDetailDoc : Tag := Tag.elem "html" [] []

/-- A well-formed citation row whose title link leads (via the fetch
oracle) to the container-less detail page. -/
def demoTr : Tag :=
  Tag.elem "tr" [("class", "cit-table item")]
    [Tag.elem "td" [("id", "col-title")]
       [Tag.elem "a" [("href", "/citations?view_op=view_citation&citation_for_view=X")]
          [Tag.text "Some Paper"]],
     Tag.elem "td" [("id", "col-citedby")]
       [Tag.elem "a" [("href", "/scholar?cites=5")] [Tag.text "5"]],
     Tag.elem "td" [("id", "col-year")] [Tag.text "2010"]]

/-- C8 witness: the fault on concrete inputs. -/
theorem claim_c8_witness :
    viewCitationParse emptyDetailDoc = Except.error PyErr.attributeError
    ∧ parseOneCit (fun _ => emptyDetailDoc) demoTr = Except.error PyErr.attributeError :=
  ⟨(claim_c8_missing_container_faults emptyDetailDoc (by rfl)).1,
   ((claim_c8_missing_container_faults emptyDetailDoc (by rfl)).2 (fun _ => emptyDetailDoc)
      (fun _ => rfl) demoTr).1⟩

/-- C10: the stored count cap never limits the accumulated collection —
`query`'s parse appends every emitted record no matter the cap (the result
is literally independent of the count), and the `[:count]` truncation
exists only in the rendering helpers `txt` / `csv`. -/
theorem claim_c10_cap_only_display (count count2 : Int) (doc : Tag) (arts : List Article) :
    querierQuery count doc = querierQuery count2 doc
    ∧ ((querierQuery count doc).2 = Option.none → (querierQuery count doc).1 = emittedB doc)
    ∧ (0 < count → txtShown count arts = arts.take count.toNat)
    ∧ (count ≤ 0 → txtShown count arts = arts) := by
  refine ⟨rfl, fun h => ?_, fun h => ?_, fun h => ?_⟩
  · have hr := runBlocks_no_error (parseOneB scholarSite) (doc.findAll checkerGsR) [] h
    simpa [querierQuery, scholarParse, emittedB] using hr
  · simp [txtShown, h]
  · simp [txtShown, not_lt.mpr h]

/-- A results page in the 07/26/12 layout carrying two article blocks. -/
def demoDivB : Tag :=
  Tag.elem "div" [("class", "gs_r")]
    [Tag.elem "div" [("class", "gs_ri")]
       [Tag.elem "h3" [("class", "gs_rt")]
          [Tag.elem "a" [("href", "/scholar?q=x")] [Tag.text "Deep Learning"]],
        Tag.elem "div" [("class", "gs_fl")]
          [Tag.elem "a" [("href", "/scholar?cites=1")] [Tag.text "Cited by 42"]]]]

/-- Two-block results page. -/
def demoDoc2 : Tag := Tag.elem "html" [] [demoDivB, demoDivB]

/-- C10 witness: with cap 1 the collection still holds 2 records; only the
rendering helper shows 1. -/
theorem claim_c10_witness :
    querierQuery 1 demoDoc2 = querierQuery 77 demoDoc2
    ∧ (querierQuery 1 demoDoc2).1.length = 2
    ∧ txtShown 1 (querierQuery 1 demoDoc2).1 = (querierQuery 1 demoDoc2).1.take 1
    ∧ (txtShown 1 (querierQuery 1 demoDoc2).1).length = 1 :=
  ⟨(claim_c10_cap_only_display 1 77 demoDoc2 []).1,
   by rfl,
   (claim_c10_cap_only_display 1 77 demoDoc2 (querierQuery 1 demoDoc2).1).2.2.1 (by decide),
   by rfl⟩
